import Mathlib

set_option maxRecDepth 100000
set_option maxHeartbeats 4000000

/-!
Verification development for the session-storage adapter, HMAC signing
helpers and auth-completion hook dispatcher of the shopify-app-js
repository.  JavaScript runtime values are embedded as the inductive
type `JSValue`; the adapter methods of `CustomSessionStorage`
(src/auth/session/storage/custom.ts) become functions returning
`Except StorageErr _`, with thrown JavaScript values modelled as
`JSValue` on the error side of the callbacks.
-/

/-- A JavaScript runtime value, as far as the adapter inspects one:
primitives, `Date` objects (carrying the parsed epoch-milliseconds, or
`none` for an Invalid Date), arrays, and objects given as ordered field
lists together with their constructor's name (`"Object"` for plain
records, `"Session"` for instances of the `Session` class). -/
inductive JSValue where
  | jsUndefined
  | null
  | bool (b : Bool)
  | num (n : Int)
  | nan
  | str (s : String)
  | date (ms : Option Int)
  | arr (elems : List JSValue)
  | obj (fields : List (String × JSValue)) (ctor : String)

/-- JavaScript truthiness: `undefined`, `null`, `false`, `0`, `NaN` and
the empty string are falsy; every other value is truthy. -/
def truthy : JSValue → Bool
  | .jsUndefined => false
  | .null => false
  | .bool b => b
  | .num n => n != 0
  | .nan => false
  | .str s => s != ""
  | .date _ => true
  | .arr _ => true
  | .obj _ _ => true

/-- `value instanceof Session`: in this model, an object whose
constructor is the `Session` class. -/
def isSessionInstance : JSValue → Bool
  | .obj _ c => c == "Session"
  | _ => false

/-- `value instanceof Object`: objects, arrays and dates are instances
of `Object`; primitives, `null` and `undefined` are not. -/
def isObjectInstance : JSValue → Bool
  | .obj _ _ => true
  | .arr _ => true
  | .date _ => true
  | _ => false

/-- `value.constructor.name`, as used by the adapter's shape-error
message (only reached on truthy values, which do have a constructor). -/
def constructorName : JSValue → String
  | .jsUndefined => "undefined"
  | .null => "null"
  | .bool _ => "Boolean"
  | .num _ => "Number"
  | .nan => "Number"
  | .str _ => "String"
  | .date _ => "Date"
  | .arr _ => "Array"
  | .obj _ c => c

/-- Property read `v[k]`: the first matching field of an object, and
`undefined` for a missing field or a non-object. -/
def getField (v : JSValue) (k : String) : JSValue :=
  match v with
  | .obj fields _ =>
    match fields.find? (fun p => p.1 == k) with
    | some p => p.2
    | none => .jsUndefined
  | _ => .jsUndefined

/-- `k in v`: whether an object has the field `k`. -/
def hasField (v : JSValue) (k : String) : Bool :=
  match v with
  | .obj fields _ => fields.any (fun p => p.1 == k)
  | _ => false

/-- Assign into a field list: replace the value of an existing key in
place, otherwise append the new field at the end (JavaScript property
insertion order). -/
def setKey : List (String × JSValue) → String → JSValue → List (String × JSValue)
  | [], k, v => [(k, v)]
  | (k', v') :: rest, k, v =>
    if k' == k then (k, v) :: rest else (k', v') :: setKey rest k v

/-- Property write `v[k] = x` (no effect on non-objects). -/
def setField (v : JSValue) (k : String) (x : JSValue) : JSValue :=
  match v with
  | .obj fields c => .obj (setKey fields k x) c
  | _ => v

/-- The own enumerable fields of a value (empty for non-objects). -/
def fieldsOf : JSValue → List (String × JSValue)
  | .obj fields _ => fields
  | _ => []

/-- The object-spread expression `{...a, ...b}`: a plain object holding
the fields of `a` updated and extended, in order, by the fields of `b`
(so fields of `b` win on common keys). -/
def spreadTwo (a b : JSValue) : JSValue :=
  .obj ((fieldsOf b).foldl (fun fs p => setKey fs p.1 p.2) (fieldsOf a)) "Object"

/-- Modelled from the spec: the `Session` class of the vendor SDK is not
among the sources; per the spec its constructor takes the four mandatory
fields id, shop, state, isOnline and assigns them as the instance's own
enumerable properties, in that order. -/
def newSession (id shop state isOnline : JSValue) : JSValue :=
  .obj [("id", id), ("shop", shop), ("state", state), ("isOnline", isOnline)] "Session"

/-- Modelled from the spec: the JavaScript string coercion used by the
template literal interpolating a thrown value into an error message (the
cause's description).  Structured throws are rendered in their generic
object form. -/
def jsToString : JSValue → String
  | .jsUndefined => "undefined"
  | .null => "null"
  | .bool b => cond b "true" "false"
  | .num n => toString n
  | .nan => "NaN"
  | .str s => s
  | .date _ => "[object Date]"
  | .arr _ => "[object Array]"
  | .obj _ c => "[object " ++ c ++ "]"

/-- The single error kind thrown by the storage adapter. -/
inductive StorageErr where
  | sessionStorageError (msg : String)

/-- The custom session storage adapter: five user-supplied callbacks,
the last two optional.  A callback's rejection/throw is an `Except.error`
carrying the thrown JavaScript value. -/
structure CustomSessionStorage where
  storeSessionCallback : JSValue → Except JSValue Bool
  loadSessionCallback : String → Except JSValue JSValue
  deleteSessionCallback : String → Except JSValue Bool
  deleteSessionsCallback : Option (List String → Except JSValue Bool)
  findSessionsByShopCallback : Option (String → Except JSValue JSValue)

/-- `storeSession`: invoke the store callback, wrapping any thrown value
as a `SessionStorageError`. -/
def CustomSessionStorage.storeSession (st : CustomSessionStorage) (session : JSValue) :
    Except StorageErr Bool :=
  match st.storeSessionCallback session with
  | .ok b => .ok b
  | .error e =>
    .error (.sessionStorageError
      ("CustomSessionStorage failed to store a session. Error Details: " ++ jsToString e))

/-- The numeric value of a decimal digit character. -/
def digitVal (c : Char) : Option Nat :=
  if c.isDigit then some (c.toNat - 48) else none

/-- Parse a fixed-width run of decimal digits. -/
def parseDigits (cs : List Char) : Option Nat :=
  cs.foldl (fun acc c => do
    let a ← acc
    let d ← digitVal c
    pure (10 * a + d)) (some 0)

/-- Days from 0000-03-01 to the given proleptic-Gregorian civil date
(year ≥ 1), by the standard era decomposition. -/
def daysFromCivil (y m d : Nat) : Nat :=
  let y := if m ≤ 2 then y - 1 else y
  let era := y / 400
  let yoe := y % 400
  let mp := (m + 9) % 12
  let doy := (153 * mp + 2) / 5 + d - 1
  let doe := yoe * 365 + yoe / 4 - yoe / 100 + doy
  era * 146097 + doe

/-- Modelled from the spec: the JavaScript `new Date(string)` parse is
platform code outside the sources; per the spec only ISO-8601 UTC
timestamp strings (the profile backends serialize, e.g.
"2024-01-01T00:00:00Z") need parsing, giving milliseconds since the Unix
epoch; any other string yields an Invalid Date (`none`). -/
def jsDateParse (s : String) : Option Int :=
  match s.data with
  | [y1, y2, y3, y4, '-', m1, m2, '-', d1, d2, 'T',
     h1, h2, ':', n1, n2, ':', s1, s2, 'Z'] => do
    let y ← parseDigits [y1, y2, y3, y4]
    let mo ← parseDigits [m1, m2]
    let d ← parseDigits [d1, d2]
    let h ← parseDigits [h1, h2]
    let mi ← parseDigits [n1, n2]
    let sec ← parseDigits [s1, s2]
    if 1 ≤ mo ∧ mo ≤ 12 ∧ 1 ≤ d ∧ d ≤ 31 ∧ h ≤ 23 ∧ mi ≤ 59 ∧ sec ≤ 59 then
      some ((((daysFromCivil y mo d : Int) - 719468) * 86400
        + h * 3600 + mi * 60 + sec) * 1000)
    else none
  | _ => none

/-- The expiry coercion repeated in both branches of `loadSession`:
`if (session.expires && typeof session.expires === 'string') session.expires = new Date(session.expires)`. -/
def coerceExpires (s : JSValue) : JSValue :=
  match getField s "expires" with
  | .str e => if truthy (.str e) then setField s "expires" (.date (jsDateParse e)) else s
  | _ => s

/-- `loadSession`: invoke the load callback (wrapping throws as
`SessionStorageError`); a falsy result is "no session"; a `Session`
instance is returned after expiry coercion; a plain object with an `id`
field is normalized by constructing a canonical `Session` from its four
mandatory fields, spreading the raw record over it, and coercing the
expiry; anything else truthy is a shape error naming the constructor. -/
def CustomSessionStorage.loadSession (st : CustomSessionStorage) (id : String) :
    Except StorageErr (Option JSValue) :=
  match st.loadSessionCallback id with
  | .error e =>
    .error (.sessionStorageError
      ("CustomSessionStorage failed to load a session. Error Details: " ++ jsToString e))
  | .ok result =>
    if truthy result then
      if isSessionInstance result then
        .ok (some (coerceExpires result))
      else if isObjectInstance result && hasField result "id" then
        let session := newSession (getField result "id") (getField result "shop")
          (getField result "state") (getField result "isOnline")
        let session := spreadTwo session result
        .ok (some (coerceExpires session))
      else
        .error (.sessionStorageError
          ("Expected return to be instanceof Session, but received instanceof "
            ++ constructorName result ++ "."))
    else
      .ok none

/-- `deleteSession`: invoke the delete callback, wrapping any thrown
value as a `SessionStorageError`. -/
def CustomSessionStorage.deleteSession (st : CustomSessionStorage) (id : String) :
    Except StorageErr Bool :=
  match st.deleteSessionCallback id with
  | .ok b => .ok b
  | .error e =>
    .error (.sessionStorageError
      ("CustomSessionStorage failed to delete a session. Error Details: " ++ jsToString e))

/-- `deleteSessions`: with a configured callback, invoke it and wrap
throws; without one, emit a console warning and fall through to the
final `return false`.  The second component collects console warnings. -/
def CustomSessionStorage.deleteSessions (st : CustomSessionStorage) (ids : List String) :
    Except StorageErr (Bool × List String) :=
  match st.deleteSessionsCallback with
  | some cb =>
    match cb ids with
    | .ok b => .ok (b, [])
    | .error e =>
      .error (.sessionStorageError
        ("CustomSessionStorage failed to delete array of sessions. Error Details: "
          ++ jsToString e))
  | none =>
    .ok (false,
      ["CustomSessionStorage failed to delete array of sessions. Error Details: deleteSessionsCallback not defined."])

/-- `findSessionsByShop`: with a configured callback, invoke it (wrapping
throws); push every element of an array result through unchanged; a
non-array result leaves the accumulator empty.  Without a callback, warn
and return the empty list.  The second component collects console
warnings. -/
def CustomSessionStorage.findSessionsByShop (st : CustomSessionStorage) (shop : String) :
    Except StorageErr (List JSValue × List String) :=
  match st.findSessionsByShopCallback with
  | some cb =>
    match cb shop with
    | .error e =>
      .error (.sessionStorageError
        ("CustomSessionStorage failed to find sessions by shop. Error Details: "
          ++ jsToString e))
    | .ok results =>
      if truthy results then
        match results with
        | .arr elems => .ok (elems, [])
        | _ => .ok ([], [])
      else .ok ([], [])
  | none =>
    .ok ([],
      ["CustomSessionStorage failed to find sessions by shop. Error Details: findSessionsByShopCallback not defined."])

/-!
HMAC-SHA256 and the signing helpers of the express test harness
(`createTestHmac`, `validWebhookHeaders`, `queryArgs`).  Bytes are
natural numbers below 256; SHA-256 words are naturals reduced modulo
2^32 at every operation.
-/

/-- Truncate to a 32-bit word. -/
def w32 (x : Nat) : Nat := x % 4294967296

/-- 32-bit right rotation. -/
def rotr32 (n x : Nat) : Nat := w32 ((x >>> n) ||| (x <<< (32 - n)))

/-- SHA-256 big sigma 0. -/
def bsig0 (x : Nat) : Nat := (rotr32 2 x) ^^^ (rotr32 13 x) ^^^ (rotr32 22 x)

/-- SHA-256 big sigma 1. -/
def bsig1 (x : Nat) : Nat := (rotr32 6 x) ^^^ (rotr32 11 x) ^^^ (rotr32 25 x)

/-- SHA-256 small sigma 0. -/
def ssig0 (x : Nat) : Nat := (rotr32 7 x) ^^^ (rotr32 18 x) ^^^ (x >>> 3)

/-- SHA-256 small sigma 1. -/
def ssig1 (x : Nat) : Nat := (rotr32 17 x) ^^^ (rotr32 19 x) ^^^ (x >>> 10)

/-- SHA-256 choice function. -/
def chFn (x y z : Nat) : Nat := (x &&& y) ^^^ ((x ^^^ 4294967295) &&& z)

/-- SHA-256 majority function. -/
def majFn (x y z : Nat) : Nat := (x &&& y) ^^^ (x &&& z) ^^^ (y &&& z)

/-- The 64 SHA-256 round constants. -/
def sha256K : List Nat :=
  [1116352408, 1899447441, 3049323471, 3921009573, 961987163, 1508970993,
   2453635748, 2870763221, 3624381080, 310598401, 607225278, 1426881987,
   1925078388, 2162078206, 2614888103, 3248222580, 3835390401, 4022224774,
   264347078, 604807628, 770255983, 1249150122, 1555081692, 1996064986,
   2554220882, 2821834349, 2952996808, 3210313671, 3336571891, 3584528711,
   113926993, 338241895, 666307205, 773529912, 1294757372, 1396182291,
   1695183700, 1986661051, 2177026350, 2456956037, 2730485921, 2820302411,
   3259730800, 3345764771, 3516065817, 3600352804, 4094571909, 275423344,
   430227734, 506948616, 659060556, 883997877, 958139571, 1322822218,
   1537002063, 1747873779, 1955562222, 2024104815, 2227730452, 2361852424,
   2428436474, 2756734187, 3204031479, 3329325298]

/-- The SHA-256 working state: eight 32-bit words. -/
structure Hash8 where
  a : Nat
  b : Nat
  c : Nat
  d : Nat
  e : Nat
  f : Nat
  g : Nat
  h : Nat

/-- The SHA-256 initial hash value. -/
def sha256Init : Hash8 :=
  ⟨1779033703, 3144134277, 1013904242, 2773480762,
   1359893119, 2600822924, 528734635, 1541459225⟩

/-- One SHA-256 compression round on a (constant, scheduled-word) pair. -/
def roundStep (s : Hash8) (kw : Nat × Nat) : Hash8 :=
  let t1 := w32 (s.h + bsig1 s.e + chFn s.e s.f s.g + kw.1 + kw.2)
  let t2 := w32 (bsig0 s.a + majFn s.a s.b s.c)
  ⟨w32 (t1 + t2), s.a, s.b, s.c, w32 (s.d + t1), s.e, s.f, s.g⟩

/-- Extend the schedule array by one word. -/
def schedStep (ws : Array Nat) : Array Nat :=
  let n := ws.size
  ws.push (w32 (ssig1 (ws.getD (n - 2) 0) + ws.getD (n - 7) 0
    + ssig0 (ws.getD (n - 15) 0) + ws.getD (n - 16) 0))

/-- The 64-entry message schedule of a 16-word block. -/
def schedule (block : List Nat) : List Nat :=
  (Nat.repeat schedStep 48 block.toArray).toList

/-- The SHA-256 compression function on a 16-word block. -/
def compress (st : Hash8) (block : List Nat) : Hash8 :=
  let t := (sha256K.zip (schedule block)).foldl roundStep st
  ⟨w32 (st.a + t.a), w32 (st.b + t.b), w32 (st.c + t.c), w32 (st.d + t.d),
   w32 (st.e + t.e), w32 (st.f + t.f), w32 (st.g + t.g), w32 (st.h + t.h)⟩

/-- SHA-256 padding: append 0x80, zeros to 56 mod 64, and the bit length
as eight big-endian bytes. -/
def padBytes (msg : List Nat) : List Nat :=
  let len := msg.length
  let z := (119 - len % 64) % 64
  msg ++ 0x80 :: List.replicate z 0
    ++ (List.range 8).map (fun i => ((8 * len) >>> (8 * (7 - i))) % 256)

/-- Split a padded byte string into its 64-byte blocks. -/
def toBlocks (bytes : List Nat) : List (List Nat) :=
  (List.range (bytes.length / 64)).map (fun i => (bytes.drop (64 * i)).take 64)

/-- The sixteen big-endian 32-bit words of a 64-byte block. -/
def bytesToWords (block : List Nat) : List Nat :=
  (List.range 16).map (fun j =>
    16777216 * block.getD (4 * j) 0 + 65536 * block.getD (4 * j + 1) 0
      + 256 * block.getD (4 * j + 2) 0 + block.getD (4 * j + 3) 0)

/-- The big-endian bytes of the final hash state. -/
def hashToBytes (s : Hash8) : List Nat :=
  List.flatten ([s.a, s.b, s.c, s.d, s.e, s.f, s.g, s.h].map
    (fun w => [(w >>> 24) % 256, (w >>> 16) % 256, (w >>> 8) % 256, w % 256]))

/-- SHA-256 of a byte string. -/
def sha256 (msg : List Nat) : List Nat :=
  hashToBytes ((toBlocks (padBytes msg)).foldl (fun st b => compress st (bytesToWords b)) sha256Init)

/-- HMAC-SHA256 (RFC 2104) of a message under a key, both byte strings. -/
def hmacSha256 (key msg : List Nat) : List Nat :=
  let key := if 64 < key.length then sha256 key else key
  let key := key ++ List.replicate (64 - key.length) 0
  sha256 ((key.map (fun b => b ^^^ 92)) ++ sha256 ((key.map (fun b => b ^^^ 54)) ++ msg))

/-- UTF-8 encoding of one character. -/
def utf8EncodeChar (c : Char) : List Nat :=
  let n := c.toNat
  if n < 128 then [n]
  else if n < 2048 then [192 + n / 64, 128 + n % 64]
  else if n < 65536 then [224 + n / 4096, 128 + (n / 64) % 64, 128 + n % 64]
  else [240 + n / 262144, 128 + (n / 4096) % 64, 128 + (n / 64) % 64, 128 + n % 64]

/-- The UTF-8 bytes of a string. -/
def utf8Bytes (s : String) : List Nat :=
  List.flatten (s.data.map utf8EncodeChar)

/-- Lowercase hexadecimal digit of a value below 16. -/
def hexDigit (n : Nat) : Char :=
  if n < 10 then Char.ofNat (48 + n) else Char.ofNat (87 + n)

/-- Lowercase hexadecimal rendering of a byte string (`digest('hex')`). -/
def hexLower (bytes : List Nat) : String :=
  String.mk (List.flatten (bytes.map (fun b => [hexDigit (b / 16 % 16), hexDigit (b % 16)])))

/-- The base64 alphabet. -/
def b64Digit (n : Nat) : Char :=
  if n < 26 then Char.ofNat (65 + n)
  else if n < 52 then Char.ofNat (97 + n - 26)
  else if n < 62 then Char.ofNat (48 + n - 52)
  else if n == 62 then '+'
  else '/'

/-- Base64 rendering of a byte string (`digest('base64')`). -/
def base64Encode (bs : List Nat) : String :=
  let cs := List.flatten ((List.range ((bs.length + 2) / 3)).map (fun i =>
    let w := 65536 * bs.getD (3 * i) 0 + 256 * bs.getD (3 * i + 1) 0 + bs.getD (3 * i + 2) 0
    [b64Digit (w >>> 18 % 64), b64Digit (w >>> 12 % 64), b64Digit (w >>> 6 % 64), b64Digit (w % 64)]))
  match bs.length % 3 with
  | 1 => String.mk (cs.dropLast.dropLast ++ ['=', '='])
  | 2 => String.mk (cs.dropLast ++ ['='])
  | _ => String.mk cs

/-- The digest encodings `createTestHmac` is called with. -/
inductive HmacDigest where
  | base64
  | hex

/-- `createTestHmac(secretKey, body, digest)`: HMAC-SHA256 of the UTF-8
body keyed by the secret, rendered in the requested digest encoding
(base64 being the default). -/
def createTestHmac (secretKey body : String) (digest : HmacDigest) : String :=
  match digest with
  | .base64 => base64Encode (hmacSha256 (utf8Bytes secretKey) (utf8Bytes body))
  | .hex => hexLower (hmacSha256 (utf8Bytes secretKey) (utf8Bytes body))

/-- The fixed test shop domain of the harness. -/
def TEST_SHOP : String := "test-shop.myshopify.io"

/-- The fixed test webhook id of the harness. -/
def TEST_WEBHOOK_ID : String := "1234567890"

/-- Modelled from the spec: `LATEST_API_VERSION` is imported from the
external SDK and its value is not among the sources; the claims only use
the presence of the header carrying it, so it is fixed here. -/
def LATEST_API_VERSION : String := "2023-04"

/-- `validWebhookHeaders(topic, body, secretKey)`: the five webhook
headers, with `X-Shopify-Hmac-Sha256` set to the base64 HMAC-SHA256 of
the body keyed by the secret. -/
def validWebhookHeaders (topic body secretKey : String) : List (String × String) :=
  [("X-Shopify-Topic", topic),
   ("X-Shopify-Shop-Domain", TEST_SHOP),
   ("X-Shopify-Hmac-Sha256", createTestHmac secretKey body .base64),
   ("X-Shopify-Webhook-Id", TEST_WEBHOOK_ID),
   ("X-Shopify-Api-Version", LATEST_API_VERSION)]

/-- Uppercase hexadecimal digit of a value below 16. -/
def hexDigitUpper (n : Nat) : Char :=
  if n < 10 then Char.ofNat (48 + n) else Char.ofNat (55 + n)

/-- Characters the urlencoded serializer leaves as-is. -/
def isFormSafe (c : Char) : Bool :=
  c.isAlphanum || c == '*' || c == '-' || c == '.' || c == '_'

/-- Modelled from the spec: the WHATWG application/x-www-form-urlencoded
serialization of one character, as produced by `URLSearchParams` (a
platform class outside the sources): alphanumerics and `*-._` are kept,
a space becomes `+`, and every other character is percent-encoded over
its UTF-8 bytes with uppercase hexadecimal. -/
def formEncodeChar (c : Char) : List Char :=
  if isFormSafe c then [c]
  else if c == ' ' then ['+']
  else List.flatten ((utf8EncodeChar c).map
    (fun b => ['%', hexDigitUpper (b / 16 % 16), hexDigitUpper (b % 16)]))

/-- The urlencoded serialization of a whole string. -/
def formEncode (s : String) : String :=
  String.mk (List.flatten (s.data.map formEncodeChar))

/-- `URLSearchParams.toString()` over an append-ordered pair list:
encoded `key=value` pairs joined with `&`. -/
def serializePairs : List (String × String) → String
  | [] => ""
  | [p] => formEncode p.1 ++ "=" ++ formEncode p.2
  | p :: q :: rest => formEncode p.1 ++ "=" ++ formEncode p.2 ++ "&" ++ serializePairs (q :: rest)

/-- The mutation at the top of `queryArgs`: add a `timestamp` key holding
the current Unix time in seconds when the query has none. -/
def ensureTimestamp (now : Nat) (query : List (String × String)) : List (String × String) :=
  if query.any (fun p => p.1 == "timestamp") then query
  else query ++ [("timestamp", toString now)]

/-- Ordinal (code-point) comparison of two character lists. -/
def charListLe : List Char → List Char → Bool
  | [], _ => true
  | _ :: _, [] => false
  | a :: as, b :: bs =>
    if a.toNat < b.toNat then true
    else if b.toNat < a.toNat then false
    else charListLe as bs

/-- Ordinal string comparison. -/
def strLe (a b : String) : Bool := charListLe a.data b.data

/-- Insert a key into a sorted key list.  The source sorts with
`localeCompare`; that platform collation is modelled here as ordinal
string comparison, with which it agrees on the lowercase-ASCII query
keys this harness uses (the spec likewise reads the sort as ordinal). -/
def insertKey (k : String) : List String → List String
  | [] => [k]
  | x :: xs => if strLe k x then k :: x :: xs else x :: insertKey k xs

/-- Sort a key list (insertion sort over the comparison above). -/
def sortStrings (ks : List String) : List String :=
  ks.foldr insertKey []

/-- `query[key]` for a key known to be present (first binding wins, as
object keys are unique). -/
def lookupValue (query : List (String × String)) (k : String) : String :=
  match query.find? (fun p => p.1 == k) with
  | some p => p.2
  | none => ""

/-- The append-ordered pair list `queryArgs` builds before the `hmac`
entry: the (timestamp-completed) query's keys sorted, each paired with
its value. -/
def sortedQueryPairs (now : Nat) (query : List (String × String)) : List (String × String) :=
  let q := ensureTimestamp now query
  (sortStrings (q.map Prod.fst)).map (fun k => (k, lookupValue q k))

/-- `queryArgs(query)`: ensure a timestamp, sort the keys, serialize the
pairs, append an `hmac` parameter holding the lowercase-hex HMAC-SHA256
of the serialized string keyed by the configured app secret, and return
the serialization of the extended parameter list.  The configured secret
and the current time (read from the harness config and the clock in the
source) are passed explicitly. -/
def queryArgs (secret : String) (now : Nat) (query : List (String × String)) : String :=
  let args := sortedQueryPairs now query
  serializePairs (args ++ [("hmac", createTestHmac secret (serializePairs args) .hex)])

/-- Split a character list at every occurrence of a separator. -/
def splitChars (sep : Char) : List Char → List (List Char)
  | [] => [[]]
  | c :: cs =>
    match splitChars sep cs with
    | [] => [[]]
    | g :: gs => if c == sep then [] :: g :: gs else (c :: g) :: gs

/-- Split a query string back into its `&`-separated `key=value` parts
and return the value of the first part with the given key. -/
def getQueryParam (s : String) (k : String) : Option String :=
  ((splitChars '&' s.data).filterMap (fun part =>
    match splitChars '=' part with
    | [key, v] => if String.mk key == k then some (String.mk v) else none
    | _ => none)).head?

/-!
The auth-completion hook dispatcher (`triggerAfterAuthHook`).  The
dispatcher is instrumented: it returns the log lines written, the list
of hook invocations made (with the argument object of each), and the
outcome — the hook's own result, errors included, or success when no
hook is configured.
-/

/-- The vendor SDK `Session` as the dispatcher passes it around. -/
structure AuthSession where
  id : String
  shop : String
  state : String
  isOnline : Bool

/-- An inbound request, as far as the dispatcher uses it. -/
structure AuthRequest where
  url : String

/-- Which redirect function the dispatcher hands to the hook. -/
inductive RedirectFn where
  | factory (request : AuthRequest)
  | remix

/-- Modelled from the spec: `createAdminApiContext` is not among the
sources; per the spec it yields an API-client context bound to the
session, built with the strategy's client-error handler (an opaque
value `H` here). -/
structure AdminApiContext (H : Type) where
  session : AuthSession
  clientErrorHandler : H

/-- The argument object passed to the afterAuth hook. -/
structure HookArgs (H : Type) where
  session : AuthSession
  admin : AdminApiContext H
  redirect : RedirectFn

/-- The user-registered hooks of the app config. -/
structure Hooks (H : Type) where
  afterAuth : Option (HookArgs H → Except JSValue Unit)

/-- The app config fields the dispatcher reads. -/
structure AppConfig (H : Type) where
  hooks : Hooks H
  isEmbeddedApp : Bool

/-- The `params` bundle (`config` plus logger, the latter modelled by
the returned log lines). -/
structure BasicParams (H : Type) where
  config : AppConfig H

/-- The authorization strategy, of which the dispatcher only uses
`handleClientError(request)`. -/
structure AuthorizationStrategy (H : Type) where
  handleClientError : AuthRequest → H

/-- Modelled from the spec: build the API-client context bound to the
given session with the given client-error handler. -/
def createAdminApiContext (session : AuthSession) (_params : BasicParams H) (handler : H) :
    AdminApiContext H :=
  ⟨session, handler⟩

/-- Modelled from the spec: the embedded-app redirect helper produced by
`redirectFactory(params, request)`. -/
def redirectFactory (_params : BasicParams H) (request : AuthRequest) : RedirectFn :=
  .factory request

/-- Modelled from the spec: the Remix standalone redirect function. -/
def remixRedirect : RedirectFn := .remix

/-- `triggerAfterAuthHook`: when an afterAuth hook is configured, log,
build the argument object (session, admin context bound to the session,
redirect chosen by the embedded flag) and invoke the hook once,
returning its outcome unchanged; otherwise do nothing.  Returns (log
lines, hook invocations, outcome). -/
def triggerAfterAuthHook (params : BasicParams H) (session : AuthSession)
    (request : AuthRequest) (authStrategy : AuthorizationStrategy H) :
    List String × List (HookArgs H) × Except JSValue Unit :=
  match params.config.hooks.afterAuth with
  | some hook =>
    let args : HookArgs H :=
      { session := session
        admin := createAdminApiContext session params (authStrategy.handleClientError request)
        redirect :=
          if params.config.isEmbeddedApp then redirectFactory params request else remixRedirect }
    (["Running afterAuth hook"], [args], hook args)
  | none => ([], [], .ok ())

/-!
Helper lemmas: field lookup through assignment, spread and the expiry
coercion, plus branch lemmas for the adapter methods.
-/

theorem find?_setKey_self (fs : List (String × JSValue)) (k : String) (v : JSValue) :
    (setKey fs k v).find? (fun p => p.1 == k) = some (k, v) := by
  induction fs with
  | nil => simp [setKey]
  | cons p rest ih =>
    obtain ⟨k', v'⟩ := p
    by_cases h : (k' == k : Bool)
    · simp [setKey, h]
    · simp only [setKey, h, Bool.false_eq_true, if_false]
      rw [List.find?_cons_of_neg _ (by simpa using h)]
      exact ih

theorem find?_setKey_other (fs : List (String × JSValue)) (k k' : String) (v : JSValue)
    (h : k' ≠ k) :
    (setKey fs k' v).find? (fun p => p.1 == k) = fs.find? (fun p => p.1 == k) := by
  induction fs with
  | nil =>
    simp only [setKey]
    rw [List.find?_cons_of_neg _ (by simpa using h)]
  | cons p rest ih =>
    obtain ⟨a, b⟩ := p
    by_cases ha : (a == k' : Bool)
    · have ha' : a = k' := by simpa using ha
      subst ha'
      simp only [setKey, beq_self_eq_true, if_true]
      rw [List.find?_cons_of_neg _ (by simpa using h),
        List.find?_cons_of_neg _ (by simpa using h)]
    · simp only [setKey, ha, Bool.false_eq_true, if_false]
      by_cases hk : (a == k : Bool)
      · rw [List.find?_cons_of_pos _ (by simpa using hk),
          List.find?_cons_of_pos _ (by simpa using hk)]
      · rw [List.find?_cons_of_neg _ (by simpa using hk),
          List.find?_cons_of_neg _ (by simpa using hk)]
        exact ih

theorem find?_foldl_noKey (ps acc : List (String × JSValue)) (k : String)
    (h : ∀ q ∈ ps, q.1 ≠ k) :
    ((ps.foldl (fun fs p => setKey fs p.1 p.2) acc).find? (fun p => p.1 == k)) =
      acc.find? (fun p => p.1 == k) := by
  induction ps generalizing acc with
  | nil => rfl
  | cons p rest ih =>
    obtain ⟨k0, v0⟩ := p
    simp only [List.foldl_cons]
    rw [ih _ (fun q hq => h q (List.mem_cons_of_mem _ hq)),
      find?_setKey_other _ _ _ _ (h (k0, v0) (List.mem_cons_self _ _))]

theorem find?_foldl_setKey (ps acc : List (String × JSValue)) (k : String)
    (hnd : (ps.map Prod.fst).Nodup) :
    ((ps.foldl (fun fs p => setKey fs p.1 p.2) acc).find? (fun p => p.1 == k)) =
      match ps.find? (fun p => p.1 == k) with
      | some p => some (k, p.2)
      | none => acc.find? (fun p => p.1 == k) := by
  induction ps generalizing acc with
  | nil => rfl
  | cons p rest ih =>
    obtain ⟨k0, v0⟩ := p
    simp only [List.map_cons, List.nodup_cons] at hnd
    obtain ⟨hk0, hndr⟩ := hnd
    simp only [List.foldl_cons]
    by_cases h : k0 = k
    · subst h
      have hno : ∀ q ∈ rest, q.1 ≠ k0 := by
        intro q hq hqk
        exact hk0 (hqk ▸ List.mem_map_of_mem Prod.fst hq)
      rw [find?_foldl_noKey _ _ _ hno, find?_setKey_self,
        List.find?_cons_of_pos _ (by simp)]
    · rw [ih _ hndr, List.find?_cons_of_neg _ (by simpa using h),
        find?_setKey_other _ _ _ _ h]

theorem getField_spreadTwo (a : JSValue) (fs : List (String × JSValue)) (c k : String)
    (hnd : (fs.map Prod.fst).Nodup) :
    getField (spreadTwo a (.obj fs c)) k =
      match fs.find? (fun p => p.1 == k) with
      | some p => p.2
      | none => getField a k := by
  show (match ((fieldsOf (.obj fs c)).foldl (fun fs p => setKey fs p.1 p.2)
      (fieldsOf a)).find? (fun p => p.1 == k) with
    | some p => p.2
    | none => JSValue.jsUndefined) = _
  rw [show fieldsOf (.obj fs c) = fs from rfl, find?_foldl_setKey _ _ _ hnd]
  cases hfs : fs.find? (fun p => p.1 == k) with
  | some p => rfl
  | none =>
    cases a <;> rfl

theorem getField_coerceExpires_other (v : JSValue) (k : String) (hk : k ≠ "expires") :
    getField (coerceExpires v) k = getField v k := by
  unfold coerceExpires
  cases hv : getField v "expires" with
  | str e =>
    by_cases he : truthy (.str e)
    · simp only [he, if_true]
      cases v with
      | obj fs c =>
        show (match (setKey fs "expires" _).find? (fun p => p.1 == k) with
          | some p => p.2
          | none => JSValue.jsUndefined) = _
        rw [find?_setKey_other _ _ _ _ (Ne.symm hk)]
        rfl
      | _ => rfl
    · simp [he]
  | _ => rfl

theorem getField_coerceExpires_expires (v : JSValue) :
    getField (coerceExpires v) "expires" =
      match getField v "expires" with
      | .str e => if e = "" then JSValue.str "" else .date (jsDateParse e)
      | w => w := by
  unfold coerceExpires
  cases hv : getField v "expires" with
  | str e =>
    simp only [hv]
    by_cases he : e = ""
    · subst he
      simp [truthy, hv]
    · have ht : truthy (.str e) = true := by simp [truthy, he]
      simp only [ht, if_true, if_neg he]
      cases v with
      | obj fs c =>
        show (match (setKey fs "expires" _).find? (fun p => p.1 == "expires") with
          | some p => p.2
          | none => JSValue.jsUndefined) = _
        rw [find?_setKey_self]
      | _ => simp [getField] at hv
  | _ => simp [hv]

theorem loadSession_ok (st : CustomSessionStorage) (id : String) (r : JSValue)
    (h : st.loadSessionCallback id = .ok r) :
    st.loadSession id =
      (if truthy r then
        if isSessionInstance r then .ok (some (coerceExpires r))
        else if isObjectInstance r && hasField r "id" then
          .ok (some (coerceExpires (spreadTwo
            (newSession (getField r "id") (getField r "shop")
              (getField r "state") (getField r "isOnline")) r)))
        else .error (.sessionStorageError
          ("Expected return to be instanceof Session, but received instanceof "
            ++ constructorName r ++ "."))
      else .ok none) := by
  unfold CustomSessionStorage.loadSession
  rw [h]

theorem getField_obj (l : List (String × JSValue)) (c k : String) :
    getField (.obj l c) k =
      match l.find? (fun p => p.1 == k) with
      | some p => p.2
      | none => .jsUndefined := rfl

theorem getField_newSession_other (a b c d : JSValue) (k : String)
    (h1 : k ≠ "id") (h2 : k ≠ "shop") (h3 : k ≠ "state") (h4 : k ≠ "isOnline") :
    getField (newSession a b c d) k = .jsUndefined := by
  have b1 : (("id" : String) == k) = false := beq_eq_false_iff_ne.mpr (Ne.symm h1)
  have b2 : (("shop" : String) == k) = false := beq_eq_false_iff_ne.mpr (Ne.symm h2)
  have b3 : (("state" : String) == k) = false := beq_eq_false_iff_ne.mpr (Ne.symm h3)
  have b4 : (("isOnline" : String) == k) = false := beq_eq_false_iff_ne.mpr (Ne.symm h4)
  rw [newSession, getField_obj]
  simp only [List.find?, b1, b2, b3, b4]

/-- Spreading a raw record over the canonical session extracted from it
is transparent to field reads: every field, the four mandatory ones
included, reads back as it does on the raw record. -/
theorem getField_spread_newSession (fields : List (String × JSValue)) (ctor k : String)
    (hnd : (fields.map Prod.fst).Nodup) :
    getField (spreadTwo
      (newSession (getField (.obj fields ctor) "id") (getField (.obj fields ctor) "shop")
        (getField (.obj fields ctor) "state") (getField (.obj fields ctor) "isOnline"))
      (.obj fields ctor)) k = getField (.obj fields ctor) k := by
  rw [getField_spreadTwo _ _ _ _ hnd]
  cases hf : fields.find? (fun p => p.1 == k) with
  | some p =>
    show p.2 = getField (JSValue.obj fields ctor) k
    rw [getField_obj, hf]
  | none =>
    show getField (newSession _ _ _ _) k = getField (JSValue.obj fields ctor) k
    by_cases e1 : k = "id"
    · subst e1
      rfl
    · by_cases e2 : k = "shop"
      · subst e2
        rfl
      · by_cases e3 : k = "state"
        · subst e3
          rfl
        · by_cases e4 : k = "isOnline"
          · subst e4
            rfl
          · have hrhs : getField (JSValue.obj fields ctor) k = .jsUndefined := by
              rw [getField_obj, hf]
            exact (getField_newSession_other _ _ _ _ _ e1 e2 e3 e4).trans hrhs.symm

/-!
Claim theorems.
-/

/-- C1 counterexample: a raw record whose `expires` field is the empty
string is normalized and returned with `expires` still the string `""` —
a string `expires` is NOT always parsed into a Date, because the source
guards the coercion with truthiness (`session.expires && typeof
session.expires === 'string'`) and the empty string is falsy. -/
theorem c1_counterexample :
    CustomSessionStorage.loadSession
      ⟨fun _ => .ok true,
       fun _ => .ok (.obj [("id", .str "x"), ("shop", .str "s.myshopify.io"),
         ("state", .str "st"), ("isOnline", .bool false), ("expires", .str "")] "Object"),
       fun _ => .ok true, none, none⟩ "x"
      = .ok (some (.obj [("id", .str "x"), ("shop", .str "s.myshopify.io"),
        ("state", .str "st"), ("isOnline", .bool false), ("expires", .str "")] "Object"))
    ∧ getField (.obj [("id", .str "x"), ("shop", .str "s.myshopify.io"),
        ("state", .str "st"), ("isOnline", .bool false), ("expires", .str "")] "Object")
        "expires" = .str "" :=
  ⟨rfl, rfl⟩

/-- C1 (amended): for a truthy plain record with an `id` field (and
unique keys, as JavaScript objects have), `loadSession` returns a value
built by extracting the four mandatory fields into a canonical Session
and overlaying all raw fields (raw fields win), so every field other
than `expires` reads back exactly as on the raw record; a NON-EMPTY
string `expires` is parsed into a Date, while an empty-string `expires`
is left as the string `""` and any non-string `expires` is untouched.
The same `expires` coercion applies when the callback returns a Session
instance.  Finally, the spec's fixture record normalizes to a session
whose `expires` is the parsed timestamp 1704067200000 ms
(2024-01-01T00:00:00Z) with `id/shop/state/isOnline` preserved. -/
theorem c1_loadSession_normalization :
    (∀ (st : CustomSessionStorage) (id : String) (fields : List (String × JSValue))
      (ctor : String),
      st.loadSessionCallback id = .ok (.obj fields ctor) → ctor ≠ "Session" →
      hasField (.obj fields ctor) "id" = true → (fields.map Prod.fst).Nodup →
      ∃ s, st.loadSession id = .ok (some s)
        ∧ (∀ k, k ≠ "expires" → getField s k = getField (.obj fields ctor) k)
        ∧ getField s "expires" =
            (match getField (.obj fields ctor) "expires" with
             | .str e => if e = "" then JSValue.str "" else .date (jsDateParse e)
             | w => w))
    ∧ (∀ (st : CustomSessionStorage) (id : String) (r : JSValue),
        st.loadSessionCallback id = .ok r → isSessionInstance r = true → truthy r = true →
        ∃ s, st.loadSession id = .ok (some s)
          ∧ (∀ k, k ≠ "expires" → getField s k = getField r k)
          ∧ getField s "expires" =
              (match getField r "expires" with
               | .str e => if e = "" then JSValue.str "" else .date (jsDateParse e)
               | w => w))
    ∧ CustomSessionStorage.loadSession
        ⟨fun _ => .ok true,
         fun _ => .ok (.obj [("id", .str "x"), ("shop", .str "s.myshopify.io"),
           ("state", .str "st"), ("isOnline", .bool false),
           ("expires", .str "2024-01-01T00:00:00Z")] "Object"),
         fun _ => .ok true, none, none⟩ "x"
      = .ok (some (.obj [("id", .str "x"), ("shop", .str "s.myshopify.io"),
          ("state", .str "st"), ("isOnline", .bool false),
          ("expires", .date (some 1704067200000))] "Object")) := by
  refine ⟨?_, ?_, rfl⟩
  · intro st id fields ctor hcb hctor hid hnd
    have hses : isSessionInstance (.obj fields ctor) = false :=
      beq_eq_false_iff_ne.mpr hctor
    rw [loadSession_ok st id _ hcb]
    simp only [show truthy (JSValue.obj fields ctor) = true from rfl, hses,
      show isObjectInstance (JSValue.obj fields ctor) = true from rfl, hid,
      Bool.and_self, if_true, Bool.false_eq_true, if_false]
    refine ⟨_, rfl, ?_, ?_⟩
    · intro k hk
      rw [getField_coerceExpires_other _ _ hk, getField_spread_newSession _ _ _ hnd]
    · rw [getField_coerceExpires_expires, getField_spread_newSession _ _ _ hnd]
  · intro st id r hcb hses htr
    rw [loadSession_ok st id r hcb]
    simp only [htr, hses, if_true]
    exact ⟨coerceExpires r, rfl, fun k hk => getField_coerceExpires_other r k hk,
      getField_coerceExpires_expires r⟩

/-- Witness for C1: the amended theorem applied to the spec's fixture
record, with every hypothesis discharged concretely. -/
theorem c1_loadSession_normalization_witness :
    ∃ s, CustomSessionStorage.loadSession
        ⟨fun _ => .ok true,
         fun _ => .ok (.obj [("id", .str "x"), ("shop", .str "s.myshopify.io"),
           ("state", .str "st"), ("isOnline", .bool false),
           ("expires", .str "2024-01-01T00:00:00Z")] "Object"),
         fun _ => .ok true, none, none⟩ "x" = .ok (some s)
      ∧ (∀ k, k ≠ "expires" →
          getField s k = getField (.obj [("id", .str "x"), ("shop", .str "s.myshopify.io"),
            ("state", .str "st"), ("isOnline", .bool false),
            ("expires", .str "2024-01-01T00:00:00Z")] "Object") k)
      ∧ getField s "expires" =
          (match getField (.obj [("id", .str "x"), ("shop", .str "s.myshopify.io"),
             ("state", .str "st"), ("isOnline", .bool false),
             ("expires", .str "2024-01-01T00:00:00Z")] "Object") "expires" with
           | .str e => if e = "" then JSValue.str "" else .date (jsDateParse e)
           | w => w) :=
  c1_loadSession_normalization.1
    ⟨fun _ => .ok true,
     fun _ => .ok (.obj [("id", .str "x"), ("shop", .str "s.myshopify.io"),
       ("state", .str "st"), ("isOnline", .bool false),
       ("expires", .str "2024-01-01T00:00:00Z")] "Object"),
     fun _ => .ok true, none, none⟩ "x"
    [("id", .str "x"), ("shop", .str "s.myshopify.io"), ("state", .str "st"),
     ("isOnline", .bool false), ("expires", .str "2024-01-01T00:00:00Z")] "Object"
    rfl (by decide) rfl (by decide)

/-- C3: whenever a supplied callback throws, each of the five operations
surfaces exactly one `SessionStorageError` whose message carries the
thrown value's description; the original exception never reaches the
caller. -/
theorem c3_callback_errors_wrapped
    (st : CustomSessionStorage) (e session : JSValue) (id did shop : String)
    (ids : List String)
    (dcb : List String → Except JSValue Bool) (fcb : String → Except JSValue JSValue)
    (h1 : st.storeSessionCallback session = .error e)
    (h2 : st.loadSessionCallback id = .error e)
    (h3 : st.deleteSessionCallback did = .error e)
    (h4 : st.deleteSessionsCallback = some dcb) (h4e : dcb ids = .error e)
    (h5 : st.findSessionsByShopCallback = some fcb) (h5e : fcb shop = .error e) :
    st.storeSession session = .error (.sessionStorageError
      ("CustomSessionStorage failed to store a session. Error Details: " ++ jsToString e))
    ∧ st.loadSession id = .error (.sessionStorageError
      ("CustomSessionStorage failed to load a session. Error Details: " ++ jsToString e))
    ∧ st.deleteSession did = .error (.sessionStorageError
      ("CustomSessionStorage failed to delete a session. Error Details: " ++ jsToString e))
    ∧ st.deleteSessions ids = .error (.sessionStorageError
      ("CustomSessionStorage failed to delete array of sessions. Error Details: "
        ++ jsToString e))
    ∧ st.findSessionsByShop shop = .error (.sessionStorageError
      ("CustomSessionStorage failed to find sessions by shop. Error Details: "
        ++ jsToString e)) := by
  refine ⟨?_, ?_, ?_, ?_, ?_⟩
  · unfold CustomSessionStorage.storeSession
    rw [h1]
  · unfold CustomSessionStorage.loadSession
    rw [h2]
  · unfold CustomSessionStorage.deleteSession
    rw [h3]
  · unfold CustomSessionStorage.deleteSessions
    simp only [h4, h4e]
  · unfold CustomSessionStorage.findSessionsByShop
    simp only [h5, h5e]

/-- Witness for C3: a storage whose five callbacks all throw the string
`"boom"`, with each operation yielding the exact wrapped error. -/
theorem c3_callback_errors_wrapped_witness :
    CustomSessionStorage.storeSession
      ⟨fun _ => .error (.str "boom"), fun _ => .error (.str "boom"),
       fun _ => .error (.str "boom"), some (fun _ => .error (.str "boom")),
       some (fun _ => .error (.str "boom"))⟩ .jsUndefined
      = .error (.sessionStorageError
        ("CustomSessionStorage failed to store a session. Error Details: "
          ++ jsToString (.str "boom")))
    ∧ CustomSessionStorage.loadSession
      ⟨fun _ => .error (.str "boom"), fun _ => .error (.str "boom"),
       fun _ => .error (.str "boom"), some (fun _ => .error (.str "boom")),
       some (fun _ => .error (.str "boom"))⟩ "a"
      = .error (.sessionStorageError
        ("CustomSessionStorage failed to load a session. Error Details: "
          ++ jsToString (.str "boom")))
    ∧ CustomSessionStorage.deleteSession
      ⟨fun _ => .error (.str "boom"), fun _ => .error (.str "boom"),
       fun _ => .error (.str "boom"), some (fun _ => .error (.str "boom")),
       some (fun _ => .error (.str "boom"))⟩ "b"
      = .error (.sessionStorageError
        ("CustomSessionStorage failed to delete a session. Error Details: "
          ++ jsToString (.str "boom")))
    ∧ CustomSessionStorage.deleteSessions
      ⟨fun _ => .error (.str "boom"), fun _ => .error (.str "boom"),
       fun _ => .error (.str "boom"), some (fun _ => .error (.str "boom")),
       some (fun _ => .error (.str "boom"))⟩ ["c"]
      = .error (.sessionStorageError
        ("CustomSessionStorage failed to delete array of sessions. Error Details: "
          ++ jsToString (.str "boom")))
    ∧ CustomSessionStorage.findSessionsByShop
      ⟨fun _ => .error (.str "boom"), fun _ => .error (.str "boom"),
       fun _ => .error (.str "boom"), some (fun _ => .error (.str "boom")),
       some (fun _ => .error (.str "boom"))⟩ "d"
      = .error (.sessionStorageError
        ("CustomSessionStorage failed to find sessions by shop. Error Details: "
          ++ jsToString (.str "boom"))) :=
  c3_callback_errors_wrapped
    ⟨fun _ => .error (.str "boom"), fun _ => .error (.str "boom"),
     fun _ => .error (.str "boom"), some (fun _ => .error (.str "boom")),
     some (fun _ => .error (.str "boom"))⟩
    (.str "boom") .jsUndefined "a" "b" "d" ["c"]
    (fun _ => .error (.str "boom")) (fun _ => .error (.str "boom"))
    rfl rfl rfl rfl rfl rfl rfl

/-- C4: a truthy load-callback result that is neither a Session instance
nor an object with an `id` field makes `loadSession` throw the
shape-identifying `SessionStorageError` (naming the value's
constructor), rather than returning anything. -/
theorem c4_loadSession_shape_error
    (st : CustomSessionStorage) (id : String) (r : JSValue)
    (hcb : st.loadSessionCallback id = .ok r) (htr : truthy r = true)
    (hses : isSessionInstance r = false)
    (hshape : isObjectInstance r = false ∨ hasField r "id" = false) :
    st.loadSession id = .error (.sessionStorageError
      ("Expected return to be instanceof Session, but received instanceof "
        ++ constructorName r ++ ".")) := by
  rw [loadSession_ok st id r hcb]
  have hand : (isObjectInstance r && hasField r "id") = false := by
    rcases hshape with h | h <;> simp [h]
  simp [htr, hses, hand]

/-- Witness for C4: a record with no `id` field yields the shape error
naming `Object`. -/
theorem c4_loadSession_shape_error_witness :
    CustomSessionStorage.loadSession
      ⟨fun _ => .ok true, fun _ => .ok (.obj [("foo", .num 1)] "Object"),
       fun _ => .ok true, none, none⟩ "x"
      = .error (.sessionStorageError
        ("Expected return to be instanceof Session, but received instanceof "
          ++ constructorName (.obj [("foo", .num 1)] "Object") ++ ".")) :=
  c4_loadSession_shape_error
    ⟨fun _ => .ok true, fun _ => .ok (.obj [("foo", .num 1)] "Object"),
     fun _ => .ok true, none, none⟩ "x" (.obj [("foo", .num 1)] "Object")
    rfl rfl rfl (Or.inr rfl)

/-- C5: every element of an array returned by a configured find-by-shop
callback is passed through unchanged — no canonical-Session extraction,
no expires parsing, no shape check. -/
theorem c5_find_passes_raw
    (st : CustomSessionStorage) (shop : String) (cb : String → Except JSValue JSValue)
    (elems : List JSValue)
    (hcb : st.findSessionsByShopCallback = some cb) (hres : cb shop = .ok (.arr elems)) :
    st.findSessionsByShop shop = .ok (elems, []) := by
  unfold CustomSessionStorage.findSessionsByShop
  simp [hcb, hres, truthy]

/-- Witness for C5: a plain record with a string `expires` and no `id`,
and even a bare string, pass through raw. -/
theorem c5_find_passes_raw_witness :
    CustomSessionStorage.findSessionsByShop
      ⟨fun _ => .ok true, fun _ => .ok .jsUndefined, fun _ => .ok true, none,
       some (fun _ => .ok (.arr [.obj [("expires", .str "2024-01-01T00:00:00Z")] "Object",
         .str "raw"]))⟩ "s.myshopify.io"
      = .ok ([.obj [("expires", .str "2024-01-01T00:00:00Z")] "Object", .str "raw"], []) :=
  c5_find_passes_raw
    ⟨fun _ => .ok true, fun _ => .ok .jsUndefined, fun _ => .ok true, none,
     some (fun _ => .ok (.arr [.obj [("expires", .str "2024-01-01T00:00:00Z")] "Object",
       .str "raw"]))⟩ "s.myshopify.io"
    (fun _ => .ok (.arr [.obj [("expires", .str "2024-01-01T00:00:00Z")] "Object",
      .str "raw"]))
    [.obj [("expires", .str "2024-01-01T00:00:00Z")] "Object", .str "raw"]
    rfl rfl

/-- C6: `findSessionsByShop` always yields a sequence, never an absent
value: with no configured callback it warns and returns the empty list
without throwing, and a configured callback returning a non-array also
yields the empty list. -/
theorem c6_find_always_sequence :
    (∀ (st : CustomSessionStorage) (shop : String),
      st.findSessionsByShopCallback = none →
      st.findSessionsByShop shop = .ok ([],
        ["CustomSessionStorage failed to find sessions by shop. Error Details: findSessionsByShopCallback not defined."]))
    ∧ (∀ (st : CustomSessionStorage) (shop : String)
        (cb : String → Except JSValue JSValue) (r : JSValue),
        st.findSessionsByShopCallback = some cb → cb shop = .ok r →
        (∀ l, r ≠ .arr l) → st.findSessionsByShop shop = .ok ([], [])) := by
  constructor
  · intro st shop h
    unfold CustomSessionStorage.findSessionsByShop
    rw [h]
  · intro st shop cb r hcb hr hna
    unfold CustomSessionStorage.findSessionsByShop
    simp only [hcb, hr]
    cases r with
    | arr l => exact absurd rfl (hna l)
    | bool b => exact ite_self _
    | num n => exact ite_self _
    | str s => exact ite_self _
    | _ => rfl

/-- Witness for C6: a callback returning a bare string yields the empty
sequence. -/
theorem c6_find_always_sequence_witness :
    CustomSessionStorage.findSessionsByShop
      ⟨fun _ => .ok true, fun _ => .ok .jsUndefined, fun _ => .ok true, none,
       some (fun _ => .ok (.str "nope"))⟩ "s"
      = .ok ([], []) :=
  c6_find_always_sequence.2
    ⟨fun _ => .ok true, fun _ => .ok .jsUndefined, fun _ => .ok true, none,
     some (fun _ => .ok (.str "nope"))⟩ "s"
    (fun _ => .ok (.str "nope")) (.str "nope") rfl rfl
    (fun _ h => JSValue.noConfusion h)

/-- C7: with no bulk-delete callback configured, `deleteSessions` never
throws: it reports the warning and returns `false` for every id list. -/
theorem c7_deleteSessions_no_callback (st : CustomSessionStorage) (ids : List String)
    (h : st.deleteSessionsCallback = none) :
    st.deleteSessions ids = .ok (false,
      ["CustomSessionStorage failed to delete array of sessions. Error Details: deleteSessionsCallback not defined."]) := by
  unfold CustomSessionStorage.deleteSessions
  rw [h]

/-- Witness for C7: the degraded bulk delete on a concrete storage and
id list. -/
theorem c7_deleteSessions_no_callback_witness :
    CustomSessionStorage.deleteSessions
      ⟨fun _ => .ok true, fun _ => .ok .jsUndefined, fun _ => .ok true, none, none⟩ ["a", "b"]
      = .ok (false,
        ["CustomSessionStorage failed to delete array of sessions. Error Details: deleteSessionsCallback not defined."]) :=
  c7_deleteSessions_no_callback
    ⟨fun _ => .ok true, fun _ => .ok .jsUndefined, fun _ => .ok true, none, none⟩ ["a", "b"] rfl

/-- C10: the load callback's falsy returns — `undefined`, `null`,
`false`, `0`, the empty string and `NaN` — are exactly the falsy values,
and each makes `loadSession` return the explicit absent result without
error; the shape error can thus only arise for truthy returns. -/
theorem c10_falsy_is_absent :
    (∀ r, truthy r = false ↔
      (r = .jsUndefined ∨ r = .null ∨ r = .bool false ∨ r = .num 0 ∨ r = .str "" ∨ r = .nan))
    ∧ (∀ (st : CustomSessionStorage) (id : String) (r : JSValue),
        st.loadSessionCallback id = .ok r → truthy r = false →
        st.loadSession id = .ok none) := by
  constructor
  · intro r
    cases r <;> simp [truthy]
  · intro st id r hcb htr
    rw [loadSession_ok st id r hcb]
    simp [htr]

/-- Witness for C10: a callback returning `false` is reported as
session-not-found. -/
theorem c10_falsy_is_absent_witness :
    CustomSessionStorage.loadSession
      ⟨fun _ => .ok true, fun _ => .ok (.bool false), fun _ => .ok true, none, none⟩ "x"
      = .ok none :=
  c10_falsy_is_absent.2
    ⟨fun _ => .ok true, fun _ => .ok (.bool false), fun _ => .ok true, none, none⟩
    "x" (.bool false) rfl rfl

/-- C9: with no afterAuth hook configured the dispatcher makes no hook
invocation; with one configured it logs and invokes the hook exactly
once, passing the session, an admin context bound to that session, and
the redirect function chosen by the embedded flag, and the hook's
outcome — any exception included — is returned unmodified (no catch, no
wrapping). -/
theorem c9_afterAuth_dispatch {H : Type}
    (params : BasicParams H) (session : AuthSession) (request : AuthRequest)
    (strat : AuthorizationStrategy H) :
    (params.config.hooks.afterAuth = none →
      triggerAfterAuthHook params session request strat = ([], [], .ok ()))
    ∧ (∀ hook, params.config.hooks.afterAuth = some hook →
        ∃ args : HookArgs H,
          triggerAfterAuthHook params session request strat
            = (["Running afterAuth hook"], [args], hook args)
          ∧ args.session = session
          ∧ args.admin.session = session
          ∧ args.redirect = (if params.config.isEmbeddedApp then
              RedirectFn.factory request else RedirectFn.remix)
          ∧ (∀ err, hook args = .error err →
              (triggerAfterAuthHook params session request strat).2.2 = .error err)) := by
  constructor
  · intro h
    unfold triggerAfterAuthHook
    rw [h]
  · intro hook h
    unfold triggerAfterAuthHook
    simp only [h]
    refine ⟨_, rfl, rfl, rfl, rfl, ?_⟩
    intro err herr
    simp only [herr]

/-- Witness for C9: a configured hook that fails with the string
`"hookfail"` in an embedded app is invoked once and its error is
returned as-is. -/
theorem c9_afterAuth_dispatch_witness :
    ∃ args : HookArgs Unit,
      triggerAfterAuthHook
        ⟨⟨⟨some (fun _ => Except.error (.str "hookfail"))⟩, true⟩⟩
        ⟨"sid", "shop.myshopify.io", "nonce", true⟩ ⟨"https://u.example"⟩ ⟨fun _ => ()⟩
        = (["Running afterAuth hook"], [args],
            (Except.error (.str "hookfail") : Except JSValue Unit))
      ∧ args.session = ⟨"sid", "shop.myshopify.io", "nonce", true⟩
      ∧ args.admin.session = ⟨"sid", "shop.myshopify.io", "nonce", true⟩
      ∧ args.redirect = RedirectFn.factory ⟨"https://u.example"⟩
      ∧ (∀ err, (Except.error (.str "hookfail") : Except JSValue Unit) = .error err →
          (triggerAfterAuthHook
            ⟨⟨⟨some (fun _ => Except.error (.str "hookfail"))⟩, true⟩⟩
            ⟨"sid", "shop.myshopify.io", "nonce", true⟩ ⟨"https://u.example"⟩
            ⟨fun _ => ()⟩).2.2 = .error err) :=
  (c9_afterAuth_dispatch
    ⟨⟨⟨some (fun _ => Except.error (.str "hookfail"))⟩, true⟩⟩
    ⟨"sid", "shop.myshopify.io", "nonce", true⟩ ⟨"https://u.example"⟩ ⟨fun _ => ()⟩).2
    (fun _ => Except.error (.str "hookfail")) rfl

theorem isFormSafe_hexDigit : ∀ n, n < 16 → isFormSafe (hexDigit n) = true := by decide

theorem flatten_map_singleton (l : List Char) : (l.map (fun c => [c])).flatten = l := by
  induction l with
  | nil => rfl
  | cons c cs ih => simp [ih]

theorem formEncode_of_safe (cs : List Char) (h : ∀ c ∈ cs, isFormSafe c = true) :
    formEncode (String.mk cs) = String.mk cs := by
  have hmap : cs.map formEncodeChar = cs.map (fun c => [c]) := by
    apply List.map_congr_left
    intro c hc
    unfold formEncodeChar
    rw [h c hc]
    simp
  show String.mk ((cs.map formEncodeChar).flatten) = String.mk cs
  rw [hmap, flatten_map_singleton]

theorem formEncode_hexLower (bs : List Nat) : formEncode (hexLower bs) = hexLower bs := by
  apply formEncode_of_safe
  intro c hc
  rw [List.mem_flatten] at hc
  obtain ⟨l, hl, hcl⟩ := hc
  rw [List.mem_map] at hl
  obtain ⟨b, _, hbl⟩ := hl
  subst hbl
  simp only [List.mem_cons, List.not_mem_nil, or_false] at hcl
  rcases hcl with h | h <;>
    exact h ▸ isFormSafe_hexDigit _ (Nat.mod_lt _ (by norm_num))

theorem serializePairs_append (ps : List (String × String)) (k v : String) (h : ps ≠ []) :
    serializePairs (ps ++ [(k, v)])
      = serializePairs ps ++ "&" ++ formEncode k ++ "=" ++ formEncode v := by
  induction ps with
  | nil => exact absurd rfl h
  | cons p rest ih =>
    cases rest with
    | nil =>
      show formEncode p.1 ++ "=" ++ formEncode p.2 ++ "&"
          ++ (formEncode k ++ "=" ++ formEncode v) = _
      simp [serializePairs, String.append_assoc]
    | cons q rest' =>
      show formEncode p.1 ++ "=" ++ formEncode p.2 ++ "&"
          ++ serializePairs ((q :: rest') ++ [(k, v)]) = _
      rw [ih (by simp)]
      show _ = formEncode p.1 ++ "=" ++ formEncode p.2 ++ "&"
          ++ serializePairs (q :: rest') ++ "&" ++ formEncode k ++ "=" ++ formEncode v
      simp [String.append_assoc]

theorem ensureTimestamp_ne_nil (now : Nat) (query : List (String × String)) :
    ensureTimestamp now query ≠ [] := by
  unfold ensureTimestamp
  by_cases h : query.any (fun p => p.1 == "timestamp") <;> simp [h]
  intro hq
  subst hq
  simp at h

theorem length_insertKey (k : String) (l : List String) :
    (insertKey k l).length = l.length + 1 := by
  induction l with
  | nil => rfl
  | cons x xs ih =>
    unfold insertKey
    split <;> simp [ih]

theorem length_sortStrings (ks : List String) : (sortStrings ks).length = ks.length := by
  induction ks with
  | nil => rfl
  | cons x xs ih => simp [sortStrings, length_insertKey] at ih ⊢; simp [ih]

theorem sortStrings_ne_nil (ks : List String) (h : ks ≠ []) : sortStrings ks ≠ [] := by
  intro hnil
  have hlen := length_sortStrings ks
  rw [hnil] at hlen
  exact h (List.length_eq_zero.mp hlen.symm)

theorem sortedQueryPairs_ne_nil (now : Nat) (query : List (String × String)) :
    sortedQueryPairs now query ≠ [] := by
  unfold sortedQueryPairs
  intro h
  rw [List.map_eq_nil] at h
  exact sortStrings_ne_nil _
    (by simpa using ensureTimestamp_ne_nil now query) h

/-- C2 counterexample: for the query `{shop: "a b", timestamp:
"1700000000"}` and secret `"sekrit"`, the emitted `hmac` parameter is
NOT the HMAC of the unencoded join `"shop=a b&timestamp=1700000000"` —
the source HMACs `URLSearchParams.toString()`, i.e. the URL-ENCODED join
`"shop=a+b&timestamp=1700000000"`. -/
theorem c2_counterexample :
    getQueryParam (queryArgs "sekrit" 0 [("shop", "a b"), ("timestamp", "1700000000")])
        "hmac"
      ≠ some (hexLower (hmacSha256 (utf8Bytes "sekrit")
          (utf8Bytes "shop=a b&timestamp=1700000000")))
    ∧ getQueryParam (queryArgs "sekrit" 0 [("shop", "a b"), ("timestamp", "1700000000")])
        "hmac"
      = some (hexLower (hmacSha256 (utf8Bytes "sekrit")
          (utf8Bytes "shop=a+b&timestamp=1700000000"))) := by
  have h1 : getQueryParam
      (queryArgs "sekrit" 0 [("shop", "a b"), ("timestamp", "1700000000")]) "hmac"
      = some "589cbced9262eedd010eea9fd082d1c84222eafc6b017fe66bd0b1cc4c8a78d0" := by
    decide
  have h2 : hexLower (hmacSha256 (utf8Bytes "sekrit")
      (utf8Bytes "shop=a b&timestamp=1700000000"))
      = "44ced6345ed210ba462721de87e7b3326fd4bd0021da33ade9d75ef2a01131cd" := by
    decide
  have h3 : hexLower (hmacSha256 (utf8Bytes "sekrit")
      (utf8Bytes "shop=a+b&timestamp=1700000000"))
      = "589cbced9262eedd010eea9fd082d1c84222eafc6b017fe66bd0b1cc4c8a78d0" := by
    decide
  refine ⟨?_, ?_⟩
  · rw [h1, h2]
    decide
  · rw [h1, h3]

theorem append_hmac_key (a h : String) :
    a ++ "&" ++ "hmac" ++ "=" ++ h = a ++ "&hmac=" ++ h := by
  rw [String.append_assoc (a ++ "&"), String.append_assoc a "&",
    show ("&" : String) ++ ("hmac" ++ "=") = "&hmac=" from rfl]

/-- C2 (amended): `queryArgs` ensures a `timestamp` key (defaulting to
the current Unix seconds), sorts the keys, joins them as URL-ENCODED
(form-urlencoded) `key=value` pairs with `&`, and appends an `hmac`
parameter equal to the lowercase-hex HMAC-SHA256 of that ENCODED joined
string keyed by the secret; for the fixture params `{shop:
"a.myshopify.io", timestamp: "1700000000"}` (which the encoding leaves
unchanged) and secret `"sekrit"`, the hmac equals the hex HMAC-SHA256 of
`"shop=a.myshopify.io&timestamp=1700000000"`, concretely
`e183881a80ffa62be5046f46f5bb3f7d8816716ab63b8669b0394dceaf0d85cb`. -/
theorem c2_queryArgs_signing :
    (∀ (secret : String) (now : Nat) (query : List (String × String)),
      queryArgs secret now query
        = serializePairs (sortedQueryPairs now query) ++ "&hmac="
          ++ hexLower (hmacSha256 (utf8Bytes secret)
              (utf8Bytes (serializePairs (sortedQueryPairs now query)))))
    ∧ (∀ (now : Nat) (query : List (String × String)),
        (ensureTimestamp now query).any (fun p => p.1 == "timestamp") = true)
    ∧ getQueryParam
        (queryArgs "sekrit" 0 [("shop", "a.myshopify.io"), ("timestamp", "1700000000")])
        "hmac"
      = some (hexLower (hmacSha256 (utf8Bytes "sekrit")
          (utf8Bytes "shop=a.myshopify.io&timestamp=1700000000")))
    ∧ getQueryParam
        (queryArgs "sekrit" 0 [("shop", "a.myshopify.io"), ("timestamp", "1700000000")])
        "hmac"
      = some "e183881a80ffa62be5046f46f5bb3f7d8816716ab63b8669b0394dceaf0d85cb" := by
  have hq : getQueryParam
      (queryArgs "sekrit" 0 [("shop", "a.myshopify.io"), ("timestamp", "1700000000")])
      "hmac"
      = some "e183881a80ffa62be5046f46f5bb3f7d8816716ab63b8669b0394dceaf0d85cb" := by
    decide
  have hh : hexLower (hmacSha256 (utf8Bytes "sekrit")
      (utf8Bytes "shop=a.myshopify.io&timestamp=1700000000"))
      = "e183881a80ffa62be5046f46f5bb3f7d8816716ab63b8669b0394dceaf0d85cb" := by
    decide
  refine ⟨?_, ?_, by rw [hq, hh], hq⟩
  · intro secret now query
    unfold queryArgs
    rw [serializePairs_append _ _ _ (sortedQueryPairs_ne_nil now query),
      show formEncode "hmac" = "hmac" from rfl,
      show ∀ s b, createTestHmac s b HmacDigest.hex
        = hexLower (hmacSha256 (utf8Bytes s) (utf8Bytes b)) from fun _ _ => rfl,
      formEncode_hexLower]
    exact append_hmac_key _ _
  · intro now query
    unfold ensureTimestamp
    by_cases h : query.any (fun p => p.1 == "timestamp") <;> simp [h]

/-- C8: the webhook header builder emits `X-Shopify-Hmac-Sha256` equal
to the base64 HMAC-SHA256 of the UTF-8 body keyed by the secret,
alongside the topic, shop-domain, webhook-id and API-version headers;
for body `"{}"` and secret `"sekrit"` the value is concretely
`sEucRZ3rf7ITUcNx6hFS/tntw+ZXCy3Yt51vbJ60WG0=`. -/
theorem c8_webhook_headers (topic body secretKey : String) :
    (validWebhookHeaders topic body secretKey).find?
        (fun p => p.1 == "X-Shopify-Hmac-Sha256")
      = some ("X-Shopify-Hmac-Sha256",
          base64Encode (hmacSha256 (utf8Bytes secretKey) (utf8Bytes body)))
    ∧ (validWebhookHeaders topic body secretKey).map Prod.fst
      = ["X-Shopify-Topic", "X-Shopify-Shop-Domain", "X-Shopify-Hmac-Sha256",
         "X-Shopify-Webhook-Id", "X-Shopify-Api-Version"]
    ∧ (validWebhookHeaders topic body secretKey).find?
        (fun p => p.1 == "X-Shopify-Topic") = some ("X-Shopify-Topic", topic)
    ∧ createTestHmac "sekrit" "\x7b\x7d" .base64
      = "sEucRZ3rf7ITUcNx6hFS/tntw+ZXCy3Yt51vbJ60WG0=" :=
  ⟨rfl, rfl, rfl, by decide⟩
